import Mathlib

/-!
Verification of the parameter-fitting notebook (`FittingExercise.py`,
`Testing.py`): a reversible first-order reaction A ⇌ B whose kinetic and
thermodynamic parameters (logA, Ea, dH, dS) are to be fitted to
concentration-vs-time data from three experiments.

The data model (`ParameterSet`, `ExperimentData`), the literal experiment
catalog, the starting guess, the placeholder results and the discrepancy
computation of `Testing.py` are embedded from the source.  The source is an
exercise skeleton: the ThermoKinetics / ReactorModel / ResidualEngine /
Estimator core described by the design document is not present in the source
files, so those components are modelled from the spec where a claim needs
them (each such definition is marked `Modelled from the spec:`).

Rationals stand for the numeric literals; the real-valued model functions
use ℝ.  A small inductive `FVal` models the IEEE-754 double values (finite,
±∞, NaN, no signed zero) that `Testing.py`'s numpy division actually
produces when the standard errors are the zero placeholders.
-/

namespace FittingExercise

/-- `ParameterSet = namedtuple('ParameterSet', ['logA', 'Ea', 'dH', 'dS'])`
from `FittingExercise.py`: the four physical parameters. -/
structure ParameterSet (α : Type) where
  logA : α
  Ea : α
  dH : α
  dS : α
deriving DecidableEq

/-- `ExperimentData = namedtuple('ExperimentData', ['T', 'cA_start', 'times', 'cA'])`
from `FittingExercise.py`: one experiment record. -/
structure ExperimentData (α : Type) where
  T : α
  cA_start : α
  times : List α
  cA : List α
deriving DecidableEq

/-- The literal three-experiment catalog `experiments` of `FittingExercise.py`. -/
def experiments : List (ExperimentData ℚ) :=
  [{ T := 298.15, cA_start := 10.0,
     times := [10, 20, 30, 40, 50, 60, 70, 80, 90, 100],
     cA := [8.649, 7.441, 7.141, 6.366, 6.215, 5.990, 5.852, 5.615, 5.481, 5.644] },
   { T := 308.15, cA_start := 10.0,
     times := [10, 20, 30, 40, 50, 60, 70, 80, 90, 100],
     cA := [7.230, 6.073, 5.452, 5.317, 5.121, 4.998, 4.951, 4.978, 5.015, 5.036] },
   { T := 323.15, cA_start := 10.0,
     times := [10, 20, 30, 40, 50, 60, 70, 80, 90, 100],
     cA := [5.137, 4.568, 4.548, 4.461, 4.382, 4.525, 4.483, 4.565, 4.459, 4.635] }]

/-- `starting_guess` of `FittingExercise.py`: logA in log10 of s^-1, Ea and dH
in kJ/mol, dS in J/mol/K. -/
def starting_guess : ParameterSet ℚ :=
  { logA := 6, Ea := 45, dH := -10, dS := -50 }

/-- `optimized_parameters = ParameterSet(0,0,0,0)` of `FittingExercise.py`:
the placeholder the exercise asks the reader to replace; the source as
written never reassigns it. -/
def optimized_parameters : ParameterSet ℚ := ⟨0, 0, 0, 0⟩

/-- `standard_errors = ParameterSet(0,0,0,0)` of `FittingExercise.py`:
the placeholder for the one-sigma standard errors; the source as written
never reassigns it. -/
def standard_errors : ParameterSet ℚ := ⟨0, 0, 0, 0⟩

/-- `true_params` of `Testing.py`. -/
def true_params : ParameterSet ℚ := ⟨6.9, 49, -13, -42⟩

/-- `array(p)` on a `ParameterSet` namedtuple: the four fields in
declaration order. -/
def ParameterSet.toList {α : Type} (p : ParameterSet α) : List α :=
  [p.logA, p.Ea, p.dH, p.dS]

/-- `ParameterSet(*l)`: rebuild a `ParameterSet` from a list; star-unpacking
requires exactly four entries, otherwise it fails. -/
def ParameterSet.ofList {α : Type} : List α → Option (ParameterSet α)
  | [a, b, c, d] => some ⟨a, b, c, d⟩
  | _ => none

/-- `discrepancy = (array(optimized_parameters) - array(true_params)) / array(standard_errors)`
followed by `ParameterSet(*discrepancy)`, from `Testing.py`: elementwise
subtraction and division of the stacked parameter vectors. -/
def discrepancy {α : Type} [Sub α] [Div α] (opt tru err : ParameterSet α) :
    Option (ParameterSet α) :=
  ParameterSet.ofList
    (List.zipWith (· / ·) (List.zipWith (· - ·) opt.toList tru.toList) err.toList)

/-- IEEE-754 double values as produced by numpy float arithmetic in
`Testing.py`: a finite value (exact, as a rational), the two infinities, or
NaN.  Signed zero is not modelled; it does not arise in the program's data. -/
inductive FVal : Type where
  | finite (q : ℚ)
  | inf
  | neginf
  | nan
deriving DecidableEq

/-- IEEE-754 subtraction on `FVal`: NaN propagates, ∞ − ∞ = NaN,
infinities absorb finite values. -/
def FVal.sub : FVal → FVal → FVal
  | .nan, _ => .nan
  | _, .nan => .nan
  | .inf, .inf => .nan
  | .inf, _ => .inf
  | .neginf, .neginf => .nan
  | .neginf, _ => .neginf
  | .finite _, .inf => .neginf
  | .finite _, .neginf => .inf
  | .finite a, .finite b => .finite (a - b)

/-- IEEE-754 division on `FVal` (no signed zero): NaN propagates,
x/0 is ±∞ by the sign of x and 0/0 is NaN, ∞/∞ is NaN, finite/∞ is 0,
∞/finite keeps the sign of the quotient. -/
def FVal.div : FVal → FVal → FVal
  | .nan, _ => .nan
  | _, .nan => .nan
  | .inf, .inf => .nan
  | .inf, .neginf => .nan
  | .neginf, .inf => .nan
  | .neginf, .neginf => .nan
  | .inf, .finite b => if 0 ≤ b then .inf else .neginf
  | .neginf, .finite b => if 0 ≤ b then .neginf else .inf
  | .finite _, .inf => .finite 0
  | .finite _, .neginf => .finite 0
  | .finite a, .finite b =>
      if b = 0 then
        if 0 < a then .inf else if a < 0 then .neginf else .nan
      else .finite (a / b)

instance : Sub FVal := ⟨FVal.sub⟩

instance : Div FVal := ⟨FVal.div⟩

/-- Whether an `FVal` is a finite number (`numpy.isfinite`). -/
def FVal.isFinite : FVal → Bool
  | .finite _ => true
  | _ => false

/-- View the exact rational literals of a `ParameterSet` as IEEE values. -/
def ParameterSet.toF (p : ParameterSet ℚ) : ParameterSet FVal :=
  ⟨.finite p.logA, .finite p.Ea, .finite p.dH, .finite p.dS⟩

theorem FVal.sub_def (a b : FVal) : a - b = FVal.sub a b := rfl

theorem FVal.div_def (a b : FVal) : a / b = FVal.div a b := rfl

/-- The molar gas constant, 8.314 J/mol/K. -/
noncomputable def R : ℝ := 8.314

/-- Modelled from the spec: the forward rate coefficient of
`ThermoKinetics.rateCoefficients`, which is absent from the source files (the
notebook only states the Arrhenius form as text):
k_f = 10^logA · exp(−Ea·1000/(R·T)), with Ea supplied in kJ/mol. -/
noncomputable def kf (p : ParameterSet ℝ) (T : ℝ) : ℝ :=
  (10 : ℝ) ^ p.logA * Real.exp (-(p.Ea * 1000) / (R * T))

/-- Modelled from the spec: ΔG = dH·1000 − T·dS in J/mol (dH arrives in
kJ/mol, dS in J/mol/K). -/
noncomputable def dG (p : ParameterSet ℝ) (T : ℝ) : ℝ :=
  p.dH * 1000 - T * p.dS

/-- Modelled from the spec: the equilibrium constant K_c = exp(−ΔG/(R·T)). -/
noncomputable def Kc (p : ParameterSet ℝ) (T : ℝ) : ℝ :=
  Real.exp (-dG p T / (R * T))

/-- Modelled from the spec: the reverse rate coefficient k_r = k_f / K_c. -/
noncomputable def kr (p : ParameterSet ℝ) (T : ℝ) : ℝ :=
  kf p T / Kc p T

/-- Modelled from the spec: the trajectory produced by `ReactorModel` for the
ODE dC_A/dt = k_r·(cA_start − C_A) − k_f·C_A with C_A(0) = cA_start.  The
spec's adaptive integrator must reproduce the solution up to negligible
error; this linear ODE has the closed form
C_A(t) = c_eq + (cA_start − c_eq)·exp(−(k_f+k_r)·t),
c_eq = cA_start·k_r/(k_f+k_r), which the model uses directly. -/
noncomputable def cA_exact (p : ParameterSet ℝ) (e : ExperimentData ℝ) (t : ℝ) : ℝ :=
  let k1 := kf p e.T
  let k2 := kr p e.T
  let ceq := e.cA_start * k2 / (k1 + k2)
  ceq + (e.cA_start - ceq) * Real.exp (-((k1 + k2) * t))

/-- Modelled from the spec: `ReactorModel.simulate`, absent from the source
files — evaluate the trajectory at exactly the requested time points,
preserving their order. -/
noncomputable def simulate (p : ParameterSet ℝ) (e : ExperimentData ℝ) : List ℝ :=
  e.times.map (cA_exact p e)

/-- Modelled from the spec: `ResidualEngine.residuals`, absent from the source
files — for each experiment in catalog order, emit predicted − observed at
each time point in time order, concatenated across experiments. -/
noncomputable def residuals (p : ParameterSet ℝ) (exps : List (ExperimentData ℝ)) :
    List ℝ :=
  (exps.map (fun e => List.zipWith (fun pr ob => pr - ob) (simulate p e) e.cA)).flatten

/-- Read an experiment record's rational literals as reals. -/
noncomputable def ExperimentData.toR (e : ExperimentData ℚ) : ExperimentData ℝ :=
  ⟨(e.T : ℝ), (e.cA_start : ℝ), e.times.map (fun q => (q : ℝ)),
   e.cA.map (fun q => (q : ℝ))⟩

/-- Modelled from the spec: the `DomainError` cases of the error taxonomy. -/
inductive DomainError : Type where
  | nonPositiveTemperature
  | negativeConcentration
  | nonMonotonicTimes
deriving DecidableEq

/-- Modelled from the spec: the entry-boundary validation — physically
invalid inputs (non-positive temperature, negative initial concentration,
non-monotonic time grid) are rejected as a `DomainError`. -/
def checkExperiment (e : ExperimentData ℚ) : Except DomainError Unit :=
  if e.T ≤ 0 then .error .nonPositiveTemperature
  else if e.cA_start < 0 then .error .negativeConcentration
  else if e.times.Chain' (· < ·) then .ok () else .error .nonMonotonicTimes

/-- Modelled from the spec: the entry boundary of the pipeline — validation
happens first, and only valid inputs reach the simulator. -/
noncomputable def checkedSimulate (p : ParameterSet ℝ) (e : ExperimentData ℚ) :
    Except DomainError (List ℝ) :=
  match checkExperiment e with
  | .error err => .error err
  | .ok _ => .ok (simulate p e.toR)

theorem residuals_nil (p : ParameterSet ℝ) : residuals p [] = [] := rfl

theorem residuals_cons (p : ParameterSet ℝ) (e : ExperimentData ℝ)
    (es : List (ExperimentData ℝ)) :
    residuals p (e :: es) =
      List.zipWith (fun pr ob => pr - ob) (simulate p e) e.cA ++ residuals p es := rfl

theorem residuals_length (p : ParameterSet ℝ) :
    ∀ exps : List (ExperimentData ℝ),
      (∀ e ∈ exps, e.cA.length = e.times.length) →
      (residuals p exps).length = (exps.map (fun e => e.times.length)).sum := by
  intro exps
  induction exps with
  | nil => intro _; rfl
  | cons e es ih =>
    intro h
    have he : e.cA.length = e.times.length := h e (List.mem_cons_self e es)
    have ih2 := ih (fun x hx => h x (List.mem_cons_of_mem e hx))
    simp only [residuals_cons, List.length_append, List.length_zipWith,
      simulate, List.length_map, List.map_cons, List.sum_cons, ih2, he, min_self]

end FittingExercise

namespace FittingExercise

/-- C2: the experiment catalog has exactly three records, with temperatures
298.15 K, 308.15 K, 323.15 K in order, each with `cA_start = 10.0`, times
10,20,…,100 s, and exactly ten observed concentrations (one per time
point). -/
theorem c2_experiment_catalog :
    experiments.length = 3 ∧
    experiments.map (fun e => e.T) = [298.15, 308.15, 323.15] ∧
    List.Forall
      (fun e => e.cA_start = 10.0 ∧
        e.times = [10, 20, 30, 40, 50, 60, 70, 80, 90, 100] ∧
        e.cA.length = 10 ∧ e.cA.length = e.times.length)
      experiments := by
  norm_num [experiments, List.Forall]

/-- C9: the initial guess supplied to the fit is exactly
`ParameterSet(logA=6.0, Ea=45.0, dH=-10.0, dS=-50.0)`. -/
theorem c9_starting_guess :
    starting_guess.logA = 6 ∧ starting_guess.Ea = 45 ∧
    starting_guess.dH = -10 ∧ starting_guess.dS = -50 := by
  decide

/-- C6: every record of the catalog has positive temperature, nonnegative
initial concentration, a strictly increasing time grid whose first entry is
positive, and as many observations as time points.  (The records are
immutable: the source stores them in `namedtuple`s, never rebinds them, and
the embedding's constants cannot be mutated.) -/
theorem c6_record_invariants :
    List.Forall
      (fun e => 0 < e.T ∧ 0 ≤ e.cA_start ∧
        e.times.Chain' (· < ·) ∧ 0 < e.times.headI ∧
        e.cA.length = e.times.length)
      experiments := by
  norm_num [experiments, List.Forall, List.chain'_cons, List.chain'_singleton,
    List.headI]

/-- C3: the reported per-parameter discrepancy is the componentwise quotient
(fitted − true)/standard_error, for each of logA, Ea, dH, dS. -/
theorem c3_discrepancy_componentwise {α : Type} [Sub α] [Div α]
    (opt tru err : ParameterSet α) :
    discrepancy opt tru err =
      some ⟨(opt.logA - tru.logA) / err.logA, (opt.Ea - tru.Ea) / err.Ea,
            (opt.dH - tru.dH) / err.dH, (opt.dS - tru.dS) / err.dS⟩ :=
  rfl

/-- C1 (code evaluation at the failing input): the program as written never
runs a fit, so `standard_errors` keeps the placeholder `(0,0,0,0)`, whose
entries are not strictly positive — the concrete scenario's required
outcome (all four standard errors finite and positive) does not hold. -/
theorem c1_standard_errors_placeholder :
    standard_errors = ⟨0, 0, 0, 0⟩ ∧
    ¬ (0 < standard_errors.logA ∧ 0 < standard_errors.Ea ∧
       0 < standard_errors.dH ∧ 0 < standard_errors.dS) := by
  decide

/-- C10: with the placeholders in place, every component of the discrepancy
computed by `Testing.py` is a division by zero (the standard errors are all
zero) and is non-finite: −∞, −∞, +∞, +∞ for logA, Ea, dH, dS respectively. -/
theorem c10_discrepancy_nonfinite :
    standard_errors = ⟨0, 0, 0, 0⟩ ∧
    discrepancy optimized_parameters.toF true_params.toF standard_errors.toF =
      some ⟨.neginf, .neginf, .inf, .inf⟩ ∧
    ∀ d, discrepancy optimized_parameters.toF true_params.toF standard_errors.toF
        = some d →
      (d.logA.isFinite = false ∧ d.Ea.isFinite = false ∧
       d.dH.isFinite = false ∧ d.dS.isFinite = false) := by
  refine ⟨rfl, ?_, ?_⟩
  · norm_num [discrepancy, ParameterSet.toF, ParameterSet.toList,
      ParameterSet.ofList, optimized_parameters, true_params, standard_errors,
      FVal.sub_def, FVal.div_def, FVal.sub, FVal.div]
  · intro d hd
    rw [show discrepancy optimized_parameters.toF true_params.toF
          standard_errors.toF = some ⟨.neginf, .neginf, .inf, .inf⟩ by
        norm_num [discrepancy, ParameterSet.toF, ParameterSet.toList,
          ParameterSet.ofList, optimized_parameters, true_params,
          standard_errors, FVal.sub_def, FVal.div_def, FVal.sub,
          FVal.div]] at hd
    cases hd
    exact ⟨rfl, rfl, rfl, rfl⟩

/-- C4: for every parameter set and every temperature T > 0, the forward rate
coefficient is k_f = 10^logA · exp(−Ea·1000/(R·T)) with R = 8.314 J/mol/K
(Ea in kJ/mol, converted to J/mol by the factor 1000). -/
theorem c4_forward_rate_coefficient (p : ParameterSet ℝ) (T : ℝ) (hT : 0 < T) :
    kf p T = (10 : ℝ) ^ p.logA * Real.exp (-(p.Ea * 1000) / (8.314 * T)) := by
  norm_num [kf, R]

/-- C4 witness: the starting-guess parameters at T = 298.15 K. -/
theorem c4_forward_rate_coefficient_witness :
    (0 : ℝ) < 298.15 ∧
    kf ⟨6, 45, -10, -50⟩ 298.15 =
      (10 : ℝ) ^ (6 : ℝ) * Real.exp (-((45 : ℝ) * 1000) / (8.314 * 298.15)) :=
  ⟨by norm_num, c4_forward_rate_coefficient ⟨6, 45, -10, -50⟩ 298.15 (by norm_num)⟩

/-- C5: for every parameter set and every valid experiment condition,
simulating on the time grid [0] returns exactly the one-element trajectory
[cA_start]. -/
theorem c5_initial_condition (p : ParameterSet ℝ) (e : ExperimentData ℝ)
    (hT : 0 < e.T) (hc : 0 ≤ e.cA_start) :
    simulate p { e with times := [0] } = [e.cA_start] := by
  simp [simulate, cA_exact]

/-- C5 witness: the starting-guess parameters and the first experiment's
condition restricted to the time grid [0]. -/
theorem c5_initial_condition_witness :
    (0 : ℝ) < 298.15 ∧ (0 : ℝ) ≤ 10 ∧
    simulate ⟨6, 45, -10, -50⟩
      { T := (298.15 : ℝ), cA_start := 10, times := [0], cA := [] } = [10] :=
  ⟨by norm_num, by norm_num,
   c5_initial_condition ⟨6, 45, -10, -50⟩
     { T := (298.15 : ℝ), cA_start := 10, times := [0], cA := [] }
     (by norm_num) (by norm_num)⟩

/-- C7: the residual engine is deterministic — equal inputs give equal
output — and the length of its output is the sum over the experiments of
their time-point counts. -/
theorem c7_residuals_deterministic_and_length (p : ParameterSet ℝ)
    (exps : List (ExperimentData ℝ))
    (h : ∀ e ∈ exps, e.cA.length = e.times.length) :
    residuals p exps = residuals p exps ∧
    (residuals p exps).length = (exps.map (fun e => e.times.length)).sum :=
  ⟨rfl, residuals_length p exps h⟩

/-- C7 witness: the starting-guess parameters and the literal catalog. -/
theorem c7_residuals_witness :
    (∀ e ∈ experiments.map ExperimentData.toR, e.cA.length = e.times.length) ∧
    (residuals ⟨6, 45, -10, -50⟩ (experiments.map ExperimentData.toR) =
       residuals ⟨6, 45, -10, -50⟩ (experiments.map ExperimentData.toR) ∧
     (residuals ⟨6, 45, -10, -50⟩ (experiments.map ExperimentData.toR)).length =
       ((experiments.map ExperimentData.toR).map (fun e => e.times.length)).sum) := by
  have h : ∀ e ∈ experiments.map ExperimentData.toR,
      e.cA.length = e.times.length := by
    intro e he
    rcases List.mem_map.mp he with ⟨q, hq, rfl⟩
    simp only [experiments, List.mem_cons, List.not_mem_nil, or_false] at hq
    rcases hq with rfl | rfl | rfl <;> rfl
  exact ⟨h, c7_residuals_deterministic_and_length ⟨6, 45, -10, -50⟩
    (experiments.map ExperimentData.toR) h⟩

/-- C8: a physically invalid input — non-positive temperature, negative
initial concentration, or non-monotonic time grid — is rejected as a
`DomainError` at the entry boundary: the checked pipeline returns the error
and never produces a trajectory. -/
theorem c8_domain_error_rejected (p : ParameterSet ℝ) (e : ExperimentData ℚ)
    (h : e.T ≤ 0 ∨ e.cA_start < 0 ∨ ¬ e.times.Chain' (· < ·)) :
    ∃ err : DomainError, checkedSimulate p e = .error err ∧
      checkExperiment e = .error err := by
  have hx : ∃ err : DomainError, checkExperiment e = .error err := by
    unfold checkExperiment
    rcases h with h1 | h2 | h3
    · exact ⟨.nonPositiveTemperature, by rw [if_pos h1]⟩
    · by_cases hT : e.T ≤ 0
      · exact ⟨.nonPositiveTemperature, by rw [if_pos hT]⟩
      · exact ⟨.negativeConcentration, by rw [if_neg hT, if_pos h2]⟩
    · by_cases hT : e.T ≤ 0
      · exact ⟨.nonPositiveTemperature, by rw [if_pos hT]⟩
      · by_cases hc : e.cA_start < 0
        · exact ⟨.negativeConcentration, by rw [if_neg hT, if_pos hc]⟩
        · exact ⟨.nonMonotonicTimes, by rw [if_neg hT, if_neg hc, if_neg h3]⟩
  rcases hx with ⟨err, herr⟩
  exact ⟨err, by unfold checkedSimulate; rw [herr], herr⟩

/-- C8 witness: a record with non-positive temperature is rejected. -/
theorem c8_domain_error_rejected_witness :
    (((⟨-1, 10, [10, 20], [8, 7]⟩ : ExperimentData ℚ).T ≤ 0 ∨
      (⟨-1, 10, [10, 20], [8, 7]⟩ : ExperimentData ℚ).cA_start < 0 ∨
      ¬ (⟨-1, 10, [10, 20], [8, 7]⟩ : ExperimentData ℚ).times.Chain' (· < ·)) ∧
     ∃ err : DomainError,
       checkedSimulate ⟨6, 45, -10, -50⟩ ⟨-1, 10, [10, 20], [8, 7]⟩ = .error err ∧
       checkExperiment (⟨-1, 10, [10, 20], [8, 7]⟩ : ExperimentData ℚ) = .error err) :=
  ⟨Or.inl (by norm_num),
   c8_domain_error_rejected ⟨6, 45, -10, -50⟩ ⟨-1, 10, [10, 20], [8, 7]⟩
     (Or.inl (by norm_num))⟩

end FittingExercise
